import Mathlib

/-!
Shallow embedding of `src/gnome_abrt/problems.py` (gnome-abrt): the
observer-notified problem cache layer (`ProblemSource`, `Problem`,
`CachedSource`, `MultipleSources`).

Modelling conventions:
- Python exceptions become `Except` values; `PyError` covers the builtin
  exception classes involved, `CreateError` the two gnome-abrt error classes
  (`errors.InvalidProblem`, `errors.UnavailableSource`) that `Problem`
  construction may raise and the cache code catches.
- Python truthiness of a cache (`if not self._cache:`) is modelled by
  `cacheTruthy`: `None` and the empty list are both falsy.
- `notify` calls are modelled as emitted events `(change_type?, problem?)`;
  each `notify` call is one event broadcast to all observers.
- External collaborators (`impl_get_problems`, `impl_delete_problem`,
  `create_new_problem` construction outcome, `source.delete_problem`) are
  parameters of the functions that call them.
-/

set_option autoImplicit false

namespace GnomeAbrt

/-- The three change-type constants of `ProblemSource`
(`NEW_PROBLEM = 0`, `DELETED_PROBLEM = 1`, `CHANGED_PROBLEM = 2`). -/
inductive ChangeType where
  | newProblem
  | deletedProblem
  | changedProblem
deriving DecidableEq, Repr

/-- A `Problem` record: identity string plus its `_deleted` tombstone flag
(the only mutable attributes the verified operations read or write). -/
structure Problem where
  problem_id : String
  deleted : Bool
deriving DecidableEq, Repr

/-- One `notify(change_type, problem)` call: both arguments default to `None`
in the Python code, hence both components are optional. -/
abbrev Event := Option ChangeType × Option Problem

/-- Python builtin exception classes that appear in the modelled code paths. -/
inductive PyError where
  | keyError
  | valueError
  | typeError
  | attributeError
deriving DecidableEq, Repr

/-- gnome-abrt error classes raised by `Problem` construction and by
`_insert_to_cache` (`errors.InvalidProblem`, `errors.UnavailableSource`). -/
inductive CreateError where
  | invalidProblem
  | unavailableSource
deriving DecidableEq, Repr

/-! ## CachedSource -/

/-- `CachedSource` state: `_cache` is `None` before the first population,
a list of `Problem`s afterwards. -/
structure CachedSource where
  cache : Option (List Problem)
deriving DecidableEq, Repr

/-- Python truthiness of `self._cache`: `None` and `[]` are falsy,
a non-empty list is truthy. -/
def cacheTruthy : Option (List Problem) → Bool
  | none => false
  | some l => !l.isEmpty

/-- The population loop of `CachedSource.get_problems`: for each id returned
by `impl_get_problems()`, append `create_new_problem(id)` to the cache,
skipping (with a logged warning) ids whose construction raises
`InvalidProblem` or `UnavailableSource`. -/
def populate (create : String → Except CreateError Problem) :
    List String → List Problem
  | [] => []
  | pid :: rest =>
    match create pid with
    | .ok p => p :: populate create rest
    | .error _ => populate create rest

/-- `CachedSource.get_problems()`. `create` models `create_new_problem`,
`implIds` the id list `impl_get_problems()` would return on this call.
Returns the result list, the new state, and whether `impl_get_problems()`
was invoked. The code guards population with `if not self._cache:` and ends
with `return self._cache if self._cache else []`. -/
def get_problems (create : String → Except CreateError Problem)
    (implIds : List String) (s : CachedSource) :
    List Problem × CachedSource × Bool :=
  if cacheTruthy s.cache then
    (s.cache.getD [], s, false)
  else
    let c := populate create implIds
    ((if c.isEmpty then [] else c), ⟨some c⟩, true)

/-- `CachedSource.drop_cache()`: reset the cache to `None` and emit one
general notification. -/
def CachedSource.drop_cache (_s : CachedSource) : CachedSource × List Event :=
  (⟨none⟩, [((none : Option ChangeType), (none : Option Problem))])

/-! ## Problem equality (`Problem.__eq__`) -/

/-- A Python value on the right-hand side of `problem == other`. -/
inductive PyVal where
  | pynone
  | pybool (b : Bool)
  | pyint (n : Int)
  | str (s : String)
  | problem (p : Problem)
deriving DecidableEq, Repr

/-- Python truthiness of a `PyVal` (`not other` negates this). -/
def truthy : PyVal → Bool
  | .pynone => false
  | .pybool b => b
  | .pyint n => !(n == 0)
  | .str s => !(s == "")
  | .problem _ => true

/-- `Problem.__eq__(self, other)`: falsy `other` compares unequal; a string
compares against `problem_id`; a `Problem` compares by id; any other (truthy)
type raises `TypeError`. -/
def Problem.eq (p : Problem) (other : PyVal) : Except PyError Bool :=
  if !truthy other then .ok false
  else match other with
    | .str s => .ok (p.problem_id == s)
    | .problem q => .ok (p.problem_id == q.problem_id)
    | _ => .error .typeError

/-- The comparison `cached_problem == problem_id` performed by
`list.index` / `list.remove` / `in` on the cache: `Problem.__eq__` against a
string never raises. -/
def pyEqProblemStr (p : Problem) (s : String) : Bool :=
  match Problem.eq p (PyVal.str s) with
  | .ok b => b
  | .error _ => false

/-! ## CachedSource: insert, delete, process_new_problem_id -/

/-- `CachedSource._insert_to_cache(problem)`: everything is guarded by
`if self._cache:` (truthiness — a `None` or empty cache means no action);
a problem already in the cache (membership via `__eq__`, i.e. by id) raises
`InvalidProblem`; otherwise the problem is appended. -/
def _insert_to_cache (s : CachedSource) (problem : Problem) :
    Except CreateError CachedSource :=
  if cacheTruthy s.cache then
    let l := s.cache.getD []
    if l.any (fun q => q.problem_id == problem.problem_id) then
      .error .invalidProblem
    else
      .ok ⟨some (l ++ [problem])⟩
  else
    .ok s

/-- `CachedSource.delete_problem(problem_id)`. `impl_delete` models
`impl_delete_problem`. A falsy provider answer returns with no change and no
event. Otherwise `self._cache.index(problem_id)` is attempted: on a `None`
cache this is an uncaught `AttributeError`; when no cached element compares
equal to the id (`ValueError`, caught) the cache is reset to `None` and one
general notification is emitted; when a match exists, the first matching
element is removed and one DELETED_PROBLEM notification carries it. -/
def delete_problem (impl_delete : String → Bool) (s : CachedSource)
    (problem_id : String) : Except PyError (CachedSource × List Event) :=
  if !impl_delete problem_id then
    .ok (s, [])
  else
    match s.cache with
    | none => .error .attributeError
    | some l =>
      match l.find? (fun q => pyEqProblemStr q problem_id) with
      | some p =>
        .ok (⟨some (l.eraseP (fun q => pyEqProblemStr q problem_id))⟩,
             [(some ChangeType.deletedProblem, some p)])
      | none =>
        .ok (⟨none⟩, [((none : Option ChangeType), (none : Option Problem))])

/-- `CachedSource.process_new_problem_id(problem_id)`: construct the
`Problem`, `_insert_to_cache` it, and notify NEW_PROBLEM; `InvalidProblem`
and `UnavailableSource` raised anywhere in that sequence are logged and
swallowed, and then no notification is emitted. -/
def process_new_problem_id (create : String → Except CreateError Problem)
    (s : CachedSource) (problem_id : String) : CachedSource × List Event :=
  match create problem_id with
  | .error _ => (s, [])
  | .ok p =>
    match _insert_to_cache s p with
    | .error _ => (s, [])
    | .ok s2 => (s2, [(some ChangeType.newProblem, some p)])

/-! ## ProblemSource observers (`attach` / `detach`) -/

/-- `ProblemSource.attach(observer)`: add to `_observers` only when not
already present (the observer set is modelled as a duplicate-free list). -/
def attach (observers : List Nat) (observer : Nat) : List Nat :=
  if observer ∈ observers then observers else observers ++ [observer]

/-- Python `set.remove(x)`: removes `x`, raising `KeyError` when `x` is not
a member. -/
def set_remove (s : List Nat) (x : Nat) : Except PyError (List Nat) :=
  if x ∈ s then .ok (s.erase x) else .error .keyError

/-- `ProblemSource.detach(observer)`: `self._observers.remove(observer)`
inside a `try` block whose `except` clause catches only `ValueError`
(logging it); any other exception propagates. -/
def detach (observers : List Nat) (observer : Nat) :
    Except PyError (List Nat) :=
  match set_remove observers observer with
  | .ok rest => .ok rest
  | .error .valueError => .ok observers
  | .error e => .error e

/-! ## Problem.delete -/

/-- `Problem.delete()`: set `_deleted = True`, then call
`self.source.delete_problem(self.problem_id)`; if that raises (any
`Exception`), log a warning and set `_deleted = False`. -/
def Problem.delete (source_delete : String → Except PyError Unit)
    (p : Problem) : Problem :=
  let p1 : Problem := { p with deleted := true }
  match source_delete p1.problem_id with
  | .ok _ => p1
  | .error _ => { p1 with deleted := false }

/-! ## MultipleSources -/

/-- Observable state of a `MultipleSources`: the `_disable_notify`
suppression flag and the list of notifications delivered so far to its own
observers. -/
structure MSState where
  disable_notify : Bool
  events : List Event
deriving DecidableEq, Repr

/-- `MultipleSources.notify(change_type, problem)`: dropped while
`_disable_notify` is set, otherwise delivered to the observers. -/
def MSState.notify (s : MSState) (e : Event) : MSState :=
  if s.disable_notify then s else { s with events := s.events ++ [e] }

/-- Behaviour of one child source during `drop_cache`: how many `notify()`
calls its own `drop_cache()` makes (each forwarded to the composite by the
`SourceObserver`, as a general `(None, None)` notification), and whether it
raises. -/
structure ChildSource where
  notifyCount : Nat
  raises : Bool
deriving DecidableEq, Repr

/-- Deliver `n` forwarded child notifications to the composite via
`MultipleSources.notify`. -/
def forwardN (s : MSState) : Nat → MSState
  | 0 => s
  | n + 1 => forwardN (s.notify ((none : Option ChangeType), (none : Option Problem))) n

/-- The loop `for s in self.sources: s.drop_cache()`: each child forwards
its notifications, then possibly raises, which aborts the loop. Returns the
resulting composite state, whether an exception escaped, and how many
children had `drop_cache()` invoked. -/
def dropChildren (s : MSState) : List ChildSource → MSState × Bool × Nat
  | [] => (s, false, 0)
  | c :: cs =>
    let s1 := forwardN s c.notifyCount
    if c.raises then (s1, true, 1)
    else
      let r := dropChildren s1 cs
      (r.1, r.2.1, r.2.2 + 1)

/-- `MultipleSources.drop_cache()`: set `_disable_notify`, drop every
child's cache, clear `_disable_notify` in a `finally` clause, and — only
when no child raised, since the exception propagates past the `finally` —
emit one own `notify()`. -/
def MultipleSources.drop_cache (children : List ChildSource) (s : MSState) :
    MSState × Bool × Nat :=
  let s0 : MSState := { s with disable_notify := true }
  let r := dropChildren s0 children
  let s2 : MSState := { r.1 with disable_notify := false }
  if r.2.1 then (s2, true, r.2.2)
  else (s2.notify ((none : Option ChangeType), (none : Option Problem)), false, r.2.2)

/-! ## Problem.get_submission -/

/-- One parsed `reported_to` entry (`Problem.Submission`). -/
structure Submission where
  title : String
  rtype : String
  data : String
deriving DecidableEq, Repr

/-- Final value of the loop index after
`for i in xrange(i0, len(l)): if pred(l[i]): break`, where the list argument
is `l` with the first `i0` characters dropped. An empty range leaves `i0`
unchanged; at the last index the loop either breaks there or completes with
`i` at that index, so both give the same value. -/
def scanFrom (pred : Char → Bool) : List Char → Nat → Nat
  | [], i => i
  | [_], i => i
  | c :: rest, i => if pred c then i else scanFrom pred rest (i + 1)

/-- One iteration of the line-parsing loop of `Problem.get_submission`:
characters before the first `:` form the title (all appended characters when
the loop breaks, or the whole line when it never does); after the `:` spaces
are skipped; characters before the first `=` form the type; the rest of the
line after the `=` is the data. -/
def parseLine (l : String) : Submission :=
  let cs := l.data
  let p := String.mk (cs.takeWhile (fun c => !(c == ':')))
  let i1 := scanFrom (fun c => c == ':') cs 0 + 1
  let i2 := scanFrom (fun c => !(c == ' ')) (cs.drop i1) i1
  let r := String.mk ((cs.drop i2).takeWhile (fun c => !(c == '=')))
  let i3 := scanFrom (fun c => c == '=') (cs.drop i2) i2 + 1
  ⟨p, r, String.mk (cs.drop i3)⟩

/-- Python `reported_to.split` on a newline character: consecutive or
trailing newlines yield empty groups, the empty string yields one empty
group. -/
def splitNL : List Char → List (List Char)
  | [] => [[]]
  | c :: rest =>
    match splitNL rest with
    | [] => [[]]
    | grp :: gs =>
      if c == Char.ofNat 10 then [] :: grp :: gs
      else (c :: grp) :: gs

/-- `Problem.get_submission()` on a given `reported_to` field value (`none`
models an absent field): a falsy value yields no submissions; otherwise
each non-empty line of the field is parsed by the per-line loop. -/
def get_submission (reported_to : Option String) : List Submission :=
  match reported_to with
  | none => []
  | some s =>
    if s == "" then []
    else ((splitNL s.data).filter (fun l => !(l.length == 0))).map
      (fun l => parseLine (String.mk l))

/-! ## Concrete fixtures -/

/-- Construction that always succeeds, wrapping the id in a fresh problem. -/
def create1 : String → Except CreateError Problem := fun pid => .ok ⟨pid, false⟩

/-- A one-element id listing from the provider. -/
def ids1 : List String := ["id1"]

/-- A sample problem with id `"a"`. -/
def pa : Problem := ⟨"a", false⟩

/-- A source whose cache holds exactly `pa`. -/
def srcA : CachedSource := ⟨some [pa]⟩

/-- A provider that accepts every deletion. -/
def implTrue : String → Bool := fun _ => true

/-- A provider that refuses every deletion. -/
def implFalse : String → Bool := fun _ => false

/-- A problem whose id is the empty string. -/
def pblank : Problem := ⟨"", false⟩

/-- A source `delete_problem` that always succeeds. -/
def delOk : String → Except PyError Unit := fun _ => .ok ()

/-! ## Claim C1: `CachedSource.get_problems` caching -/

/-- Claim C1 counterexample: when the first population produced an empty
cache, a subsequent `get_problems()` call invokes `impl_get_problems()`
again (third component `true`) and can change the cache — because the guard
`if not self._cache:` treats the loaded-empty cache like the unloaded one.
The claim asserts this cannot happen. -/
theorem C1_counterexample :
    (get_problems create1 ids1 ⟨some []⟩).2.2 = true ∧
    (get_problems create1 ids1 ⟨some []⟩).2.1 = ⟨some [Problem.mk "id1" false]⟩ := by
  constructor <;> rfl

/-- Claim C1 (amended): once the cache is populated and non-empty, every
`get_problems()` call returns the cached list unchanged, leaves the state
unchanged and does not invoke `impl_get_problems()`; moreover after any
`get_problems()` call the cache is never `None`. When the populated cache
is empty, each call re-invokes `impl_get_problems()`. -/
theorem C1_get_problems_cached
    (create : String → Except CreateError Problem) (ids : List String)
    (s : CachedSource) (l : List Problem)
    (hc : s.cache = some l) (hne : l ≠ []) :
    get_problems create ids s = (l, s, false) ∧
    (∀ s2 : CachedSource, ((get_problems create ids s2).2.1).cache ≠ none) ∧
    (∀ s3 : CachedSource, s3.cache = some [] →
        (get_problems create ids s3).2.2 = true) := by
  refine ⟨?_, ?_, ?_⟩
  · have ht : cacheTruthy (some l) = true := by
      cases l with
      | nil => exact absurd rfl hne
      | cons a t => rfl
    simp [get_problems, hc, ht]
  · intro s2
    by_cases h : cacheTruthy s2.cache = true
    · cases hs : s2.cache with
      | none => rw [hs] at h; simp [cacheTruthy] at h
      | some l2 => rw [hs] at h; simp [get_problems, hs, h]
    · simp only [Bool.not_eq_true] at h
      simp [get_problems, h]
  · intro s3 h3
    have hf : cacheTruthy s3.cache = false := by rw [h3]; rfl
    simp [get_problems, hf]

/-- Claim C1 witness. -/
theorem C1_witness :
    srcA.cache = some [pa] ∧ [pa] ≠ [] ∧
    get_problems create1 ids1 srcA = ([pa], srcA, false) :=
  ⟨rfl, by decide,
   (C1_get_problems_cached create1 ids1 srcA [pa] rfl (by decide)).1⟩

/-! ## Claim C2: `MultipleSources.drop_cache` batching -/

/-- A suppressed composite drops any notification. -/
theorem notify_of_disabled (s : MSState) (e : Event)
    (h : s.disable_notify = true) : s.notify e = s := by
  simp [MSState.notify, h]

/-- Forwarded child notifications leave a suppressed composite unchanged. -/
theorem forwardN_of_disabled (s : MSState) (h : s.disable_notify = true)
    (n : Nat) : forwardN s n = s := by
  induction n with
  | zero => rfl
  | succ m ih =>
    show forwardN (s.notify _) m = s
    rw [notify_of_disabled s _ h]
    exact ih

/-- Dropping the children of a suppressed composite, when none raises,
changes nothing, raises nothing, and reaches every child. -/
theorem dropChildren_of_disabled (s : MSState) (h : s.disable_notify = true)
    (cs : List ChildSource) (hnr : ∀ c ∈ cs, c.raises = false) :
    dropChildren s cs = (s, false, cs.length) := by
  induction cs with
  | nil => rfl
  | cons c cs ih =>
    have hc : c.raises = false := hnr c (List.mem_cons_self c cs)
    have h1 : forwardN s c.notifyCount = s :=
      forwardN_of_disabled s h c.notifyCount
    have ih2 := ih (fun d hd => hnr d (List.mem_cons_of_mem c hd))
    simp [dropChildren, h1, hc, ih2]

/-- Claim C2: with N ≥ 1 children none of which raises, `drop_cache()` on a
`MultipleSources` reaches every child, ends with the suppression flag
cleared, and delivers exactly one (general) notification to its own
observers — none of the child-change notifications forwarded during the
drop reaches them, whatever their number. Additionally, the suppression
flag is cleared after `drop_cache()` even when a child raised (the
`finally` clause), in which case the exception escapes. -/
theorem C2_ms_drop_cache (children : List ChildSource) (s : MSState)
    (_hne : children ≠ []) (hnr : ∀ c ∈ children, c.raises = false)
    (he : s.events = []) :
    MultipleSources.drop_cache children s =
      (⟨false, [((none : Option ChangeType), (none : Option Problem))]⟩,
       false, children.length) ∧
    ∀ (cs : List ChildSource) (t : MSState),
      ((MultipleSources.drop_cache cs t).1).disable_notify = false := by
  constructor
  · have h0 : ({ s with disable_notify := true } : MSState).disable_notify
        = true := rfl
    have hd := dropChildren_of_disabled { s with disable_notify := true }
      h0 children hnr
    rw [he] at hd
    simp [MultipleSources.drop_cache, he, hd, MSState.notify]
  · intro cs t
    simp only [MultipleSources.drop_cache]
    split
    · rfl
    · simp [MSState.notify]

/-- Claim C2 witness. -/
theorem C2_witness :
    ([ChildSource.mk 2 false, ChildSource.mk 0 false] : List ChildSource) ≠ [] ∧
    MultipleSources.drop_cache
        [ChildSource.mk 2 false, ChildSource.mk 0 false] ⟨false, []⟩ =
      (⟨false, [((none : Option ChangeType), (none : Option Problem))]⟩,
       false, 2) :=
  ⟨by decide,
   (C2_ms_drop_cache [ChildSource.mk 2 false, ChildSource.mk 0 false]
     ⟨false, []⟩ (by decide) (by decide) rfl).1⟩

/-! ## Claim C3: attach / detach tolerance -/

/-- Claim C3: `attach` of an already-registered observer leaves the set
unchanged, but `detach` of a non-registered observer raises `KeyError`
rather than being tolerated: `self._observers` is a `set`, whose `remove`
raises `KeyError`, while the `except` clause of `detach` catches only
`ValueError` — so the exception propagates, contradicting the documented
tolerance. -/
theorem C3_detach_keyerror :
    detach ([] : List Nat) 0 = Except.error PyError.keyError ∧
    attach [7] 7 = [7] := by
  constructor <;> rfl

/-! ## Claim C4: `process_new_problem_id` -/

/-- Claim C4 counterexample: on a source whose cache is not loaded
(`_cache = None`), `process_new_problem_id` emits the NEW_PROBLEM
notification but inserts nothing — the cache is still `None` afterwards —
because `_insert_to_cache` is a no-op behind `if self._cache:`. The claim
asserts insertion happens regardless of the cache's state. -/
theorem C4_counterexample :
    process_new_problem_id create1 ⟨none⟩ "id1" =
      (⟨none⟩, [(some ChangeType.newProblem, some (Problem.mk "id1" false))]) ∧
    (⟨none⟩ : CachedSource).cache = none := by
  constructor <;> rfl

/-- Claim C4 (amended): when the cache is loaded and non-empty and the new
id is not yet cached, `process_new_problem_id` constructs the problem,
appends it, and emits exactly one NEW_PROBLEM notification carrying it;
when construction raises `InvalidProblem` or `UnavailableSource` the
failure is swallowed, the state is unchanged and nothing is notified; when
the cache is `None` or empty the problem is not inserted but the
NEW_PROBLEM notification is still emitted; when the id is already cached
the duplicate-insert error is swallowed and nothing is notified. -/
theorem C4_process_new_problem_id
    (create : String → Except CreateError Problem) (s : CachedSource)
    (l : List Problem) (problem_id : String) (p : Problem)
    (hok : create problem_id = .ok p) (hc : s.cache = some l) (hne : l ≠ [])
    (hfresh : l.any (fun q => q.problem_id == p.problem_id) = false) :
    process_new_problem_id create s problem_id =
      (⟨some (l ++ [p])⟩, [(some ChangeType.newProblem, some p)]) ∧
    (∀ (s2 : CachedSource) (pid2 : String) (e : CreateError),
        create pid2 = .error e →
        process_new_problem_id create s2 pid2 = (s2, [])) ∧
    (∀ (pid2 : String) (p2 : Problem), create pid2 = .ok p2 →
        ∀ s2 : CachedSource, cacheTruthy s2.cache = false →
        process_new_problem_id create s2 pid2 =
          (s2, [(some ChangeType.newProblem, some p2)])) ∧
    (∀ (pid2 : String) (p2 : Problem), create pid2 = .ok p2 →
        l.any (fun q => q.problem_id == p2.problem_id) = true →
        process_new_problem_id create s pid2 = (s, [])) := by
  have ht : cacheTruthy (some l) = true := by
    cases l with
    | nil => exact absurd rfl hne
    | cons a t => rfl
  refine ⟨?_, ?_, ?_, ?_⟩
  · simp [process_new_problem_id, hok, _insert_to_cache, hc, ht, hfresh]
  · intro s2 pid2 e herr
    simp [process_new_problem_id, herr]
  · intro pid2 p2 hok2 s2 hf
    simp [process_new_problem_id, hok2, _insert_to_cache, hf]
  · intro pid2 p2 hok2 hdup
    simp [process_new_problem_id, hok2, _insert_to_cache, hc, ht, hdup]

/-- Claim C4 witness. -/
theorem C4_witness :
    create1 "id1" = .ok (Problem.mk "id1" false) ∧ srcA.cache = some [pa] ∧
    process_new_problem_id create1 srcA "id1" =
      (⟨some [pa, Problem.mk "id1" false]⟩,
       [(some ChangeType.newProblem, some (Problem.mk "id1" false))]) :=
  ⟨rfl, rfl,
   (C4_process_new_problem_id create1 srcA [pa] "id1" (Problem.mk "id1" false)
     rfl rfl (by decide) (by decide)).1⟩

/-! ## Claim C5: `Problem.delete` tombstone revert -/

/-- Claim C5: `delete()` tombstones the problem and asks the source to
delete the record; when that call succeeds the problem stays tombstoned,
and when it raises any exception the tombstone is reverted, leaving the
problem exactly as before. -/
theorem C5_problem_delete (source_delete : String → Except PyError Unit)
    (p : Problem) (h : p.deleted = false) :
    ((∃ u, source_delete p.problem_id = .ok u) →
        Problem.delete source_delete p = { p with deleted := true }) ∧
    (∀ e, source_delete p.problem_id = .error e →
        Problem.delete source_delete p = p) := by
  constructor
  · rintro ⟨u, hu⟩
    simp [Problem.delete, hu]
  · intro e herr
    cases p with
    | mk pid del =>
      simp only [Problem.deleted] at h
      subst h
      simp [Problem.delete, herr]

/-- Claim C5 witness. -/
theorem C5_witness :
    pa.deleted = false ∧ Problem.delete delOk pa = Problem.mk "a" true :=
  ⟨rfl, (C5_problem_delete delOk pa rfl).1 ⟨(), rfl⟩⟩

/-! ## Claim C6: deletion refused by the provider -/

/-- Claim C6: when `impl_delete_problem` answers falsy, `delete_problem`
returns at once: the state is untouched and no notification is emitted. -/
theorem C6_delete_refused (impl_delete : String → Bool) (s : CachedSource)
    (problem_id : String) (h : impl_delete problem_id = false) :
    delete_problem impl_delete s problem_id = .ok (s, []) := by
  simp [delete_problem, h]

/-- Claim C6 witness. -/
theorem C6_witness :
    implFalse "a" = false ∧ delete_problem implFalse srcA "a" = .ok (srcA, []) :=
  ⟨rfl, C6_delete_refused implFalse srcA "a" rfl⟩

/-! ## Claim C7: `_insert_to_cache` duplicate rejection -/

/-- Claim C7 counterexample: on a loaded but empty cache, `_insert_to_cache`
appends nothing — the `if self._cache:` guard treats the loaded-empty cache
as falsy — while the claim requires the (non-duplicate) problem to be
appended whenever the cache is loaded. -/
theorem C7_counterexample :
    _insert_to_cache ⟨some []⟩ pa = .ok ⟨some []⟩ ∧
    (⟨some []⟩ : CachedSource) ≠ ⟨some [pa]⟩ :=
  ⟨rfl, by decide⟩

/-- Claim C7 (amended): on a loaded non-empty cache, inserting a problem
whose id is already cached raises `InvalidProblem` and leaves the cache
untouched, and inserting a fresh id appends it, which preserves the
no-duplicate-id invariant; on an unloaded or loaded-empty cache
`_insert_to_cache` is a silent no-op (nothing is appended). -/
theorem C7_insert_to_cache (s : CachedSource) (l : List Problem) (p : Problem)
    (hc : s.cache = some l) (hne : l ≠ []) :
    (l.any (fun q => q.problem_id == p.problem_id) = true →
        _insert_to_cache s p = .error .invalidProblem) ∧
    (l.any (fun q => q.problem_id == p.problem_id) = false →
        _insert_to_cache s p = .ok ⟨some (l ++ [p])⟩) ∧
    (∀ s2 : CachedSource, cacheTruthy s2.cache = false →
        _insert_to_cache s2 p = .ok s2) ∧
    ((l.map Problem.problem_id).Nodup →
        l.any (fun q => q.problem_id == p.problem_id) = false →
        ((l ++ [p]).map Problem.problem_id).Nodup) := by
  have ht : cacheTruthy (some l) = true := by
    cases l with
    | nil => exact absurd rfl hne
    | cons a t => rfl
  refine ⟨?_, ?_, ?_, ?_⟩
  · intro hdup
    simp [_insert_to_cache, hc, ht, hdup]
  · intro hfresh
    simp [_insert_to_cache, hc, ht, hfresh]
  · intro s2 hf
    simp [_insert_to_cache, hf]
  · intro hnd hfresh
    rw [List.map_append]
    refine List.Nodup.append hnd (List.nodup_singleton _) ?_
    intro a ha hb
    simp only [List.mem_map] at ha
    obtain ⟨q, hq, rfl⟩ := ha
    simp only [List.map_cons, List.map_nil, List.mem_singleton] at hb
    rw [List.any_eq_false] at hfresh
    exact absurd (by simp [hb]) (hfresh q hq)

/-- Claim C7 witness. -/
theorem C7_witness :
    srcA.cache = some [pa] ∧
    _insert_to_cache srcA (Problem.mk "id1" false) =
      .ok ⟨some [pa, Problem.mk "id1" false]⟩ :=
  ⟨rfl, (C7_insert_to_cache srcA [pa] (Problem.mk "id1" false) rfl
    (by decide)).2.1 (by decide)⟩

/-! ## Claim C8: `delete_problem` on a loaded cache -/

/-- For a non-empty id string, the cache lookup comparison
`cached_problem == problem_id` is plain id equality (the falsy shortcut of
`Problem.__eq__` does not fire). -/
theorem pyEqProblemStr_of_ne (q : Problem) (pid : String) (h : pid ≠ "") :
    pyEqProblemStr q pid = (q.problem_id == pid) := by
  have hb : (pid == "") = false := beq_eq_false_iff_ne.mpr h
  simp [pyEqProblemStr, Problem.eq, truthy, hb]

/-- Claim C8 counterexample: with a cached problem whose id is the empty
string and a deletion request for that same (empty) id accepted by the
provider, the code invalidates the whole cache and emits the general
notification — the id is present in the cache, yet no DELETED_PROBLEM
notification is emitted, because `Problem.__eq__` treats the empty string
as falsy and the `index` lookup never matches it. -/
theorem C8_counterexample :
    delete_problem implTrue ⟨some [pblank]⟩ "" =
      .ok (⟨none⟩, [((none : Option ChangeType), (none : Option Problem))]) ∧
    pblank.problem_id = "" :=
  ⟨rfl, rfl⟩

/-- Claim C8 (amended, restricted to a non-empty `problem_id` — the lookup
compares via `Problem.__eq__`, which never matches the empty string): when
the provider accepts the deletion and the loaded cache has no entry with
that id, the cache is reset to the unloaded state and one general
notification (no change type, no problem) is emitted; when an entry with
that id exists, the first such entry is removed and exactly one
DELETED_PROBLEM notification carrying it is emitted. -/
theorem C8_delete_problem (impl_delete : String → Bool) (s : CachedSource)
    (l : List Problem) (problem_id : String)
    (himpl : impl_delete problem_id = true) (hc : s.cache = some l)
    (hpid : problem_id ≠ "") :
    (l.find? (fun q => q.problem_id == problem_id) = none →
        delete_problem impl_delete s problem_id =
          .ok (⟨none⟩,
            [((none : Option ChangeType), (none : Option Problem))])) ∧
    (∀ p, l.find? (fun q => q.problem_id == problem_id) = some p →
        p ∈ l ∧ p.problem_id = problem_id ∧
        delete_problem impl_delete s problem_id =
          .ok (⟨some (l.eraseP (fun q => q.problem_id == problem_id))⟩,
               [(some ChangeType.deletedProblem, some p)])) := by
  have hp : (fun q => pyEqProblemStr q problem_id)
      = (fun q => q.problem_id == problem_id) :=
    funext fun q => pyEqProblemStr_of_ne q problem_id hpid
  constructor
  · intro hfind
    simp [delete_problem, himpl, hc, hp, hfind]
  · intro p hfind
    refine ⟨List.mem_of_find?_eq_some hfind, ?_, ?_⟩
    · have h1 := List.find?_some hfind
      exact eq_of_beq h1
    · simp [delete_problem, himpl, hc, hp, hfind]

/-- Claim C8 witness. -/
theorem C8_witness :
    implTrue "a" = true ∧ srcA.cache = some [pa] ∧ ("a" : String) ≠ "" ∧
    delete_problem implTrue srcA "a" =
      .ok (⟨some []⟩, [(some ChangeType.deletedProblem, some pa)]) :=
  ⟨rfl, rfl, by decide,
   ((C8_delete_problem implTrue srcA [pa] "a" rfl rfl (by decide)).2 pa
     (by decide)).2.2⟩

/-! ## Claim C9: `get_submission` parsing -/

/-- Claim C9: for `reported_to = "Bugzilla: URL=http://example.com/?id=1"`,
`get_submission()` yields exactly one entry with title `"Bugzilla"` (the
characters before the first colon), type `"URL"` (after skipping the spaces
that follow the colon, the characters up to the first `=`) and data
`"http://example.com/?id=1"` (the rest of the line, embedded `=` kept). -/
theorem C9_get_submission_example :
    get_submission (some "Bugzilla: URL=http://example.com/?id=1") =
      [Submission.mk "Bugzilla" "URL" "http://example.com/?id=1"] := by
  decide

/-! ## Claim C10: `Problem.__eq__` -/

/-- Claim C10 counterexample: a problem whose id is the empty string does
not compare equal to the empty string, although the ids are equal — the
falsy shortcut of `__eq__` fires before the string comparison. The claim
asserts `p == s` iff `p.problem_id == s` for every string `s`. -/
theorem C10_counterexample :
    Problem.eq pblank (PyVal.str "") = .ok false ∧ pblank.problem_id = "" :=
  ⟨rfl, rfl⟩

/-- Claim C10 (amended): `p == q` for problems is id equality; `p == s` for
a non-empty string `s` is id-against-string equality (the empty string,
being falsy, always compares unequal, even to an empty id); any falsy
operand compares unequal without raising; any truthy operand that is
neither a string nor a `Problem` raises `TypeError`. -/
theorem C10_problem_eq (p q : Problem) (s : String) (v : PyVal)
    (hs : s ≠ "") :
    Problem.eq p (PyVal.problem q) = .ok (p.problem_id == q.problem_id) ∧
    Problem.eq p (PyVal.str s) = .ok (p.problem_id == s) ∧
    (truthy v = false → Problem.eq p v = .ok false) ∧
    (truthy v = true → (∀ s2, v ≠ PyVal.str s2) →
        (∀ q2, v ≠ PyVal.problem q2) →
        Problem.eq p v = .error PyError.typeError) := by
  have hb : (s == "") = false := beq_eq_false_iff_ne.mpr hs
  refine ⟨?_, ?_, ?_, ?_⟩
  · simp [Problem.eq, truthy]
  · simp [Problem.eq, truthy, hb]
  · intro hf
    simp [Problem.eq, hf]
  · intro ht hstr hprob
    cases v with
    | pynone => simp [truthy] at ht
    | pybool b =>
      simp only [truthy] at ht
      simp [Problem.eq, truthy, ht]
    | pyint n => simp [Problem.eq, ht]
    | str s2 => exact absurd rfl (hstr s2)
    | problem q2 => exact absurd rfl (hprob q2)

/-- Claim C10 witness. -/
theorem C10_witness :
    ("b" : String) ≠ "" ∧ Problem.eq pa (PyVal.str "b") = .ok false := by
  refine ⟨by decide, ?_⟩
  have h := (C10_problem_eq pa pa "b" (PyVal.pyint 5) (by decide)).2.1
  exact h.trans rfl

end GnomeAbrt
